import Mathlib

/-!
Verification of the weekly Sri Lanka trend agent (`agent.py`).

The development shallowly embeds the core logic of the agent:

* `JsonVal` and `json_loads` model the Python `json.loads` (a strict
  recursive-descent JSON reader, fuelled for termination; exact error
  strings differ from those of CPython but the success/failure behaviour is the
  point of the claims).
* `pyFind`, `pyRfind`, `pySlice` model the Python `str.find`, `str.rfind`
  and slicing on character sequences.
* `safe_extract_json` is the first-brace/last-brace extraction
  heuristic.
* `fetch_rss` is the feed collector over an abstract `feedparser` oracle.
* `build_prompt` is the prompt builder (template transcribed from the
  source, `json.dumps` of the input blob included).
* `runMain` is the orchestration from `main`: one generation attempt, a
  single stricter retry on extraction failure, then either the report
  email or the debug email.  The generator (`gemini_generate`, an HTTP
  call) and `feedparser.parse` are external services; they enter the
  embedding as function parameters, and the emails the run would send are
  recorded in the result instead of being transmitted.
-/

/-- A parsed JSON value.  Numbers keep their source lexeme (no claim
inspects numeric values); objects keep their members in source order. -/
inductive JsonVal where
  | null : JsonVal
  | bool (b : Bool) : JsonVal
  | num (lexeme : String) : JsonVal
  | str (s : String) : JsonVal
  | arr (items : List JsonVal) : JsonVal
  | obj (members : List (String × JsonVal)) : JsonVal

/-- JSON insignificant whitespace. -/
def isWs (c : Char) : Bool :=
  c = ' ' || c = '\t' || c = '\n' || c = '\r'

/-- Drop leading JSON whitespace. -/
def skipWs : List Char → List Char
  | [] => []
  | c :: cs => if isWs c then skipWs cs else c :: cs

/-- Value of a hexadecimal digit. -/
def hexVal (c : Char) : Option Nat :=
  if '0' ≤ c ∧ c ≤ '9' then some (c.toNat - 48)
  else if 'a' ≤ c ∧ c ≤ 'f' then some (c.toNat - 87)
  else if 'A' ≤ c ∧ c ≤ 'F' then some (c.toNat - 55)
  else none

/-- Single-character JSON string escapes. -/
def escapeCharVal : Char → Option Char
  | '\"' => some '\"'
  | '\\' => some '\\'
  | '/' => some '/'
  | 'b' => some (Char.ofNat 8)
  | 'f' => some (Char.ofNat 12)
  | 'n' => some '\n'
  | 'r' => some '\r'
  | 't' => some '\t'
  | _ => none

/-- Read the remainder of a JSON string literal (the opening quote has
been consumed); returns the decoded characters and the rest. -/
def parseStringRest : List Char → Except String (List Char × List Char)
  | [] => .error "Unterminated string"
  | '\"' :: rest => .ok ([], rest)
  | '\\' :: 'u' :: a :: b :: c :: d :: rest =>
    match hexVal a, hexVal b, hexVal c, hexVal d with
    | some h1, some h2, some h3, some h4 =>
      (parseStringRest rest).map
        (fun p => (Char.ofNat (4096 * h1 + 256 * h2 + 16 * h3 + h4) :: p.1, p.2))
    | _, _, _, _ => .error "Invalid hex escape"
  | '\\' :: e :: rest =>
    match escapeCharVal e with
    | some c => (parseStringRest rest).map (fun p => (c :: p.1, p.2))
    | none => .error "Invalid escape"
  | c :: rest =>
    if c.toNat < 32 then .error "Invalid control character"
    else (parseStringRest rest).map (fun p => (c :: p.1, p.2))

/-- Longest decimal-digit run at the head of the input. -/
def takeDigits : List Char → List Char × List Char
  | [] => ([], [])
  | c :: rest =>
    if c.isDigit then
      let p := takeDigits rest
      (c :: p.1, p.2)
    else ([], c :: rest)

/-- JSON number integer part: a single `0`, or a nonzero digit run. -/
def parseIntPart : List Char → Except String (List Char × List Char)
  | [] => .error "Expecting value"
  | '0' :: rest => .ok (['0'], rest)
  | c :: rest =>
    if c.isDigit then
      let p := takeDigits rest
      .ok (c :: p.1, p.2)
    else .error "Expecting value"

/-- JSON number fraction part (possibly absent). -/
def parseFracPart : List Char → Except String (List Char × List Char)
  | '.' :: rest =>
    match takeDigits rest with
    | ([], _) => .error "Expecting digit after decimal point"
    | (ds, r) => .ok ('.' :: ds, r)
  | l => .ok ([], l)

/-- JSON number exponent part (possibly absent). -/
def parseExpPart : List Char → Except String (List Char × List Char)
  | [] => .ok ([], [])
  | e :: rest =>
    if e = 'e' ∨ e = 'E' then
      let sr : List Char × List Char :=
        match rest with
        | '+' :: r => (['+'], r)
        | '-' :: r => (['-'], r)
        | r => ([], r)
      match takeDigits sr.2 with
      | ([], _) => .error "Expecting digit in exponent"
      | (ds, r) => .ok (e :: (sr.1 ++ ds), r)
    else .ok ([], e :: rest)

/-- Read a JSON number; the head of the input is `-` or a digit. -/
def parseNumber (l : List Char) : Except String (JsonVal × List Char) :=
  let sl : List Char × List Char :=
    match l with
    | '-' :: r => (['-'], r)
    | r => ([], r)
  match parseIntPart sl.2 with
  | .error e => .error e
  | .ok (ip, l2) =>
    match parseFracPart l2 with
    | .error e => .error e
    | .ok (fp, l3) =>
      match parseExpPart l3 with
      | .error e => .error e
      | .ok (ep, l4) => .ok (JsonVal.num (String.mk (sl.1 ++ ip ++ fp ++ ep)), l4)

mutual

/-- Read one JSON value (no leading whitespace).  The fuel only bounds
nesting of the mutual calls, mirroring the recursion limit of the
library decoder; the top level supplies more fuel than any input can
consume. -/
def parseValue : Nat → List Char → Except String (JsonVal × List Char)
  | 0, _ => .error "Too much recursion"
  | Nat.succ _, [] => .error "Expecting value"
  | Nat.succ fuel, '\x7b' :: rest =>
    (parseObjBody fuel (skipWs rest)).map (fun p => (JsonVal.obj p.1, p.2))
  | Nat.succ fuel, '[' :: rest =>
    (parseArrBody fuel (skipWs rest)).map (fun p => (JsonVal.arr p.1, p.2))
  | Nat.succ _, '\"' :: rest =>
    (parseStringRest rest).map (fun p => (JsonVal.str (String.mk p.1), p.2))
  | Nat.succ _, 't' :: 'r' :: 'u' :: 'e' :: r => .ok (JsonVal.bool true, r)
  | Nat.succ _, 'f' :: 'a' :: 'l' :: 's' :: 'e' :: r => .ok (JsonVal.bool false, r)
  | Nat.succ _, 'n' :: 'u' :: 'l' :: 'l' :: r => .ok (JsonVal.null, r)
  | Nat.succ _, c :: rest =>
    if c = '-' then parseNumber (c :: rest)
    else if c.isDigit then parseNumber (c :: rest)
    else .error "Expecting value"

/-- Inside an object, right after `\x7b` (whitespace skipped). -/
def parseObjBody : Nat → List Char → Except String (List (String × JsonVal) × List Char)
  | 0, _ => .error "Too much recursion"
  | Nat.succ fuel, l =>
    match l with
    | '\x7d' :: rest => .ok ([], rest)
    | l2 => parseMembers fuel l2

/-- One or more `"key": value` members, comma separated, then `\x7d`. -/
def parseMembers : Nat → List Char → Except String (List (String × JsonVal) × List Char)
  | 0, _ => .error "Too much recursion"
  | Nat.succ fuel, l =>
    match l with
    | '\"' :: rest =>
      match parseStringRest rest with
      | .error e => .error e
      | .ok (kcs, r1) =>
        match skipWs r1 with
        | ':' :: r2 =>
          match parseValue fuel (skipWs r2) with
          | .error e => .error e
          | .ok (v, r3) =>
            match skipWs r3 with
            | ',' :: r4 =>
              match parseMembers fuel (skipWs r4) with
              | .error e => .error e
              | .ok (ms, r5) => .ok ((String.mk kcs, v) :: ms, r5)
            | '\x7d' :: r4 => .ok ([(String.mk kcs, v)], r4)
            | _ => .error "Expecting comma delimiter"
        | _ => .error "Expecting colon delimiter"
    | _ => .error "Expecting property name enclosed in double quotes"

/-- Inside an array, right after `[` (whitespace skipped). -/
def parseArrBody : Nat → List Char → Except String (List JsonVal × List Char)
  | 0, _ => .error "Too much recursion"
  | Nat.succ fuel, l =>
    match l with
    | ']' :: rest => .ok ([], rest)
    | l2 => parseElems fuel l2

/-- One or more array elements, comma separated, then `]`. -/
def parseElems : Nat → List Char → Except String (List JsonVal × List Char)
  | 0, _ => .error "Too much recursion"
  | Nat.succ fuel, l =>
    match parseValue fuel l with
    | .error e => .error e
    | .ok (v, r1) =>
      match skipWs r1 with
      | ',' :: r2 =>
        match parseElems fuel (skipWs r2) with
        | .error e => .error e
        | .ok (vs, r3) => .ok (v :: vs, r3)
      | ']' :: r2 => .ok ([v], r2)
      | _ => .error "Expecting comma delimiter"

end

/-- Model of Python `json.loads`: decode one JSON document, allowing
surrounding whitespace only. -/
def json_loads (s : String) : Except String JsonVal :=
  match parseValue (3 * s.length + 3) (skipWs s.data) with
  | .error e => .error e
  | .ok (v, rest) =>
    match skipWs rest with
    | [] => .ok v
    | _ => .error "Extra data"

/-- Python `str.find` on a character sequence: index of the first
occurrence (`none` models `-1`). -/
def pyFind (l : List Char) (c : Char) : Option Nat :=
  match l with
  | [] => none
  | x :: xs => if x = c then some 0 else (pyFind xs c).map (· + 1)

/-- Python `str.rfind` on a character sequence: index of the last
occurrence (`none` models `-1`). -/
def pyRfind (l : List Char) (c : Char) : Option Nat :=
  match l with
  | [] => none
  | x :: xs =>
    match pyRfind xs c with
    | some i => some (i + 1)
    | none => if x = c then some 0 else none

/-- Python slice `l[a:b]` for nonnegative bounds. -/
def pySlice (l : List Char) (a b : Nat) : List Char :=
  (l.drop a).take (b - a)

/-- Result of the extractor: `agent.py` returns a dict with key ok set to
True and the report,
or `{"ok": False, "raw": …, "error": …}`. -/
inductive ExtractResult where
  | ok (report : JsonVal)
  | fail (raw : String) (error : String)

/-- Function `safe_extract_json` from `agent.py`: locate the first `\x7b` and the
last `\x7d`; if either is absent fail with "No JSON detected", otherwise
parse the inclusive span, failing with the parse error message. -/
def safe_extract_json (text : String) : ExtractResult :=
  match pyFind text.data '\x7b', pyRfind text.data '\x7d' with
  | some start, some stop =>
    match json_loads (String.mk (pySlice text.data start (stop + 1))) with
    | .ok v => ExtractResult.ok v
    | .error e => ExtractResult.fail text ("JSON parse failed: " ++ e)
  | _, _ => ExtractResult.fail text "No JSON detected"

/-- Lowercase hexadecimal digit character. -/
def hexDigitChar (n : Nat) : Char :=
  if n < 10 then Char.ofNat (48 + n) else Char.ofNat (87 + n)

/-- How `json.dumps(…, ensure_ascii=False)` escapes one character. -/
def escapeJsonChar (c : Char) : List Char :=
  if c = '\"' then ['\\', '\"']
  else if c = '\\' then ['\\', '\\']
  else if c = '\n' then ['\\', 'n']
  else if c = '\r' then ['\\', 'r']
  else if c = '\t' then ['\\', 't']
  else if c.toNat = 8 then ['\\', 'b']
  else if c.toNat = 12 then ['\\', 'f']
  else if c.toNat < 32 then
    ['\\', 'u', '0', '0', hexDigitChar (c.toNat / 16), hexDigitChar (c.toNat % 16)]
  else [c]

/-- Serialize a string as a JSON string literal (`ensure_ascii=False`). -/
def json_dumps_string (s : String) : String :=
  String.mk ('\"' :: ((s.data.map escapeJsonChar).flatten ++ ['\"']))

mutual

/-- Compact serialization, as `json.dumps(v, ensure_ascii=False)` with the
default separators `", "` and `": "`. -/
def dumpsV : JsonVal → String
  | .null => "null"
  | .bool true => "true"
  | .bool false => "false"
  | .num lx => lx
  | .str s => json_dumps_string s
  | .arr items => "[" ++ dumpsItems items ++ "]"
  | .obj ms => "\x7b" ++ dumpsMembers ms ++ "\x7d"

/-- Array elements joined by `", "`. -/
def dumpsItems : List JsonVal → String
  | [] => ""
  | [v] => dumpsV v
  | v :: vs => dumpsV v ++ ", " ++ dumpsItems vs

/-- Object members `"key": value` joined by `", "`. -/
def dumpsMembers : List (String × JsonVal) → String
  | [] => ""
  | [(k, v)] => json_dumps_string k ++ ": " ++ dumpsV v
  | (k, v) :: ms => json_dumps_string k ++ ": " ++ dumpsV v ++ ", " ++ dumpsMembers ms

end

/-- Model of `json.dumps(v, ensure_ascii=False)`. -/
def json_dumps (v : JsonVal) : String := dumpsV v

/-- Indentation of `n` spaces. -/
def indentSpaces (n : Nat) : String := String.mk (List.replicate n ' ')

mutual

/-- Model of `json.dumps(v, ensure_ascii=False, indent=2)` at the given current
indentation (with `indent`, the item separator becomes `",\n"`). -/
def dumps2V : Nat → JsonVal → String
  | _, .null => "null"
  | _, .bool true => "true"
  | _, .bool false => "false"
  | _, .num lx => lx
  | _, .str s => json_dumps_string s
  | _, .arr [] => "[]"
  | ind, .arr (v :: vs) =>
    "[\n" ++ dumps2Items ind (v :: vs) ++ "\n" ++ indentSpaces ind ++ "]"
  | _, .obj [] => "\x7b\x7d"
  | ind, .obj (m :: ms) =>
    "\x7b\n" ++ dumps2Members ind (m :: ms) ++ "\n" ++ indentSpaces ind ++ "\x7d"

/-- Indented array elements joined by `",\n"`. -/
def dumps2Items : Nat → List JsonVal → String
  | _, [] => ""
  | ind, [v] => indentSpaces (ind + 2) ++ dumps2V (ind + 2) v
  | ind, v :: vs =>
    indentSpaces (ind + 2) ++ dumps2V (ind + 2) v ++ ",\n" ++ dumps2Items ind vs

/-- Indented object members joined by `",\n"`. -/
def dumps2Members : Nat → List (String × JsonVal) → String
  | _, [] => ""
  | ind, [(k, v)] =>
    indentSpaces (ind + 2) ++ json_dumps_string k ++ ": " ++ dumps2V (ind + 2) v
  | ind, (k, v) :: ms =>
    indentSpaces (ind + 2) ++ json_dumps_string k ++ ": " ++ dumps2V (ind + 2) v ++
      ",\n" ++ dumps2Members ind ms

end

/-- Model of `json.dumps(v, ensure_ascii=False, indent=2)`. -/
def json_dumps_indent2 (v : JsonVal) : String := dumps2V 0 v

/-- A collected feed item: `fetch_rss` extracts exactly these three
fields. -/
structure FeedItem where
  title : String
  link : String
  published : String

/-- One entry as `feedparser` exposes it; `none` models an absent
attribute (so `getattr(e, …, "")` falls back to the empty string). -/
structure RawEntry where
  title : Option String
  link : Option String
  published : Option String

/-- Modelled from the spec: the result of `feedparser.parse` (the library
is outside the repository).  Per the Collector contract of the spec it never
raises; on any network or parse fault it yields a document from which no
items could be parsed, i.e. `entries = []`. -/
structure ParsedFeed where
  entries : List RawEntry

/-- Function `fetch_rss` from `agent.py`, over an abstract `feedparser.parse`. -/
def fetch_rss (feedparse : String → ParsedFeed) (url : String) (max_items : Nat) :
    List FeedItem :=
  ((feedparse url).entries.take max_items).map
    (fun e => ⟨e.title.getD "", e.link.getD "", e.published.getD ""⟩)

def GOOGLE_TRENDS_DAILY_LK : String :=
  "https://trends.google.com/trends/trendingsearches/daily/rss?geo=LK"

def GOOGLE_NEWS_LK : String :=
  "https://news.google.com/rss?hl=en-LK&gl=LK&ceid=LK:en"

/-- The JSON value `input_blob` of `build_prompt`. -/
def feedItemJson (f : FeedItem) : JsonVal :=
  JsonVal.obj [("title", JsonVal.str f.title), ("link", JsonVal.str f.link),
    ("published", JsonVal.str f.published)]

def input_blob (today : String) (trends_daily news : List FeedItem) : JsonVal :=
  JsonVal.obj [("date", JsonVal.str today),
    ("google_trends_lk_daily", JsonVal.arr (trends_daily.map feedItemJson)),
    ("google_news_lk", JsonVal.arr (news.map feedItemJson))]

/-- The f-string of `build_prompt` up to the `today` interpolation inside
the schema (`"date": "{today}"`).  Doubled braces of the Python f-string
are single braces here. -/
def promptPart1 : String :=
  "\nYou are a Sri Lanka trend analyst and marketing strategist.\n" ++
  "\n" ++
  "Brands\n" ++
  "Group A combined: Studio Nalini + Nalini e shop\n" ++
  "Group B separate: Nalini book shop\n" ++
  "\n" ++
  "Goal\n" ++
  "Create a Monday report of trends to follow for the coming week in Sri Lanka.\n" ++
  "\n" ++
  "Scoring each trend 0 to 25\n" ++
  "Growth 0-5\n" ++
  "Sri Lanka relevance 0-5\n" ++
  "Brand fit 0-5\n" ++
  "Feasibility 0-5 (phone-friendly content)\n" ++
  "Risk 0-5 (5 is safest)\n" ++
  "Only FOLLOW if total >= 18\n" ++
  "Avoid politics, tragedy, hate, misinformation.\n" ++
  "\n" ++
  "Output ONLY valid JSON with this schema:\n" ++
  "\x7b\n" ++
  "  \"date\": \""

/-- One `groupX_campaign` schema block of the template, with its `kpis`
line supplied by the caller. -/
def campaignBlock (kpisLine : String) : String :=
  "        \"big_idea\": \"\",\n" ++
  "        \"post_ideas\": [\"\",\"\",\"\"],\n" ++
  "        \"video_ideas\": [\n" ++
  "          \x7b\"hook\":\"\",\"plot\":\"\",\"script\":\"\",\"shot_list\":[\"\",\"\",\"\"],\"caption\":\"\",\"hashtags\":\"\"\x7d,\n" ++
  "          \x7b\"hook\":\"\",\"plot\":\"\",\"script\":\"\",\"shot_list\":[\"\",\"\",\"\"],\"caption\":\"\",\"hashtags\":\"\"\x7d\n" ++
  "        ],\n" ++
  "        \"weekly_calendar\": [\n" ++
  "          \x7b\"day\":\"Mon\",\"content\":\"\"\x7d, \x7b\"day\":\"Tue\",\"content\":\"\"\x7d, \x7b\"day\":\"Wed\",\"content\":\"\"\x7d,\n" ++
  "          \x7b\"day\":\"Thu\",\"content\":\"\"\x7d, \x7b\"day\":\"Fri\",\"content\":\"\"\x7d, \x7b\"day\":\"Sat\",\"content\":\"\"\x7d, \x7b\"day\":\"Sun\",\"content\":\"\"\x7d\n" ++
  "        ],\n" ++
  kpisLine

/-- The f-string of `build_prompt` between the `today` interpolation and
the `json.dumps(input_blob, …)` interpolation. -/
def promptPart2 : String :=
  "\",\n" ++
  "  \"summary\": \"\",\n" ++
  "  \"trends\": [\n" ++
  "    \x7b\n" ++
  "      \"name\": \"\",\n" ++
  "      \"why_trending\": \"\",\n" ++
  "      \"signals\": \"\",\n" ++
  "      \"score\": \x7b\"growth\":0,\"sl_relevance\":0,\"brand_fit\":0,\"feasibility\":0,\"risk\":0,\"total\":0\x7d,\n" ++
  "      \"decision\": \"FOLLOW or SKIP\",\n" ++
  "      \"groupA_campaign\": \x7b\n" ++
  campaignBlock "        \"kpis\": \x7b\"reach\":\"\",\"saves\":\"\",\"clicks\":\"\",\"dm_inquiries\":\"\"\x7d\n" ++
  "      \x7d,\n" ++
  "      \"groupB_campaign\": \x7b\n" ++
  campaignBlock "        \"kpis\": \x7b\"reach\":\"\",\"saves\":\"\",\"store_visits\":\"\",\"calls\":\"\"\x7d\n" ++
  "      \x7d\n" ++
  "    \x7d\n" ++
  "  ],\n" ++
  "  \"email_subject\": \"\",\n" ++
  "  \"email_body\": \"\"\n" ++
  "\x7d\n" ++
  "\n" ++
  "Input signals:\n"

/-- Function `build_prompt` from `agent.py`.  The Python function reads the clock
for `today`; the embedding takes the formatted date as an argument, which
is also how the spec states the Builder contract. -/
def build_prompt (today : String) (trends_daily news : List FeedItem) : String :=
  promptPart1 ++ today ++ promptPart2 ++
    json_dumps (input_blob today trends_daily news) ++ "\n"

/-- An email the run hands to `send_email` (subject, body).  The fields
are the raw values the Python code passes, so a non-string value a
malformed report supplies is represented as the `JsonVal` it is. -/
structure SentEmail where
  subject : JsonVal
  body : JsonVal

/-- Observable outcome of one `main` run: the prompts sent to the
generator in order, the emails sent in order, and the uncaught exception
that aborted the run, if any. -/
structure RunResult where
  calls : List String
  emails : List SentEmail
  aborted : Option String

/-- Python `dict.get(k, d)` over the member list `json.loads` produced:
on duplicate keys the later member wins, as in a Python dict built by the
decoder. -/
def pyGet (kvs : List (String × JsonVal)) (k : String) (d : JsonVal) : JsonVal :=
  match kvs with
  | [] => d
  | (k2, v) :: rest => pyGet rest k (if k2 = k then v else d)

/-- Lines 167–169 of `agent.py`: read `email_subject` and `email_body`
off the report with defaults.  `none` models the `AttributeError` Python
would raise if the parsed report were not a dict (`.get` undefined). -/
def reportEmail (report : JsonVal) : Option SentEmail :=
  match report with
  | JsonVal.obj kvs =>
    some ⟨pyGet kvs "email_subject" (JsonVal.str "Weekly Sri Lanka Trend Report"),
          pyGet kvs "email_body" (JsonVal.str (json_dumps_indent2 report))⟩
  | _ => none

/-- Finish a run on the success path with the given call log. -/
def finishCalls (calls : List String) (report : JsonVal) : RunResult :=
  match reportEmail report with
  | some em => ⟨calls, [em], none⟩
  | none => ⟨calls, [], some "AttributeError"⟩

/-- The strict-JSON-only instruction prepended on the retry. -/
def strictHeader : String := "Return ONLY JSON. No markdown. No extra text.\n\n"

/-- The debug email of the both-attempts-failed path (lines 161–165):
fixed subject, and a body with the failure reason and the first 8000
characters of the raw model output. -/
def debugEmail (err raw : String) : SentEmail :=
  ⟨JsonVal.str "Weekly Trend Agent ERROR (JSON parsing failed)",
   JsonVal.str ("Error: " ++ err ++ "\n\nRaw output:\n" ++ raw.take 8000)⟩

/-- Lines 150–171 of `agent.py`: generation attempt one, extraction, one
stricter retry on failure, then the report email or the debug email.  The
generator `gen` models `gemini_generate`: `Except.error` is an uncaught
exception (HTTP fault or non-2xx status), which propagates. -/
def runMain (gen : String → Except String String) (prompt : String) : RunResult :=
  match gen prompt with
  | .error e => ⟨[prompt], [], some e⟩
  | .ok raw =>
    match safe_extract_json raw with
    | ExtractResult.ok report => finishCalls [prompt] report
    | ExtractResult.fail _ _ =>
      let strict_prompt := strictHeader ++ prompt
      match gen strict_prompt with
      | .error e => ⟨[prompt, strict_prompt], [], some e⟩
      | .ok raw2 =>
        match safe_extract_json raw2 with
        | ExtractResult.ok report => finishCalls [prompt, strict_prompt] report
        | ExtractResult.fail raw2k err2 =>
          ⟨[prompt, strict_prompt], [debugEmail err2 raw2k], none⟩

/-- Function `main` from `agent.py`: collect the two feeds, build the prompt, run
the generation/extraction flow. -/
def agent_main (feedparse : String → ParsedFeed) (gen : String → Except String String)
    (today : String) : RunResult :=
  let trends_daily := fetch_rss feedparse GOOGLE_TRENDS_DAILY_LK 40
  let news := fetch_rss feedparse GOOGLE_NEWS_LK 30
  let prompt := build_prompt today trends_daily news
  runMain gen prompt

/-- Spec-side notion: `i` is the index of the first occurrence of `c`. -/
def firstIdxOf (l : List Char) (c : Char) (i : Nat) : Prop :=
  l[i]? = some c ∧ ∀ j, j < i → l[j]? ≠ some c

/-- Spec-side notion: `i` is the index of the last occurrence of `c`. -/
def lastIdxOf (l : List Char) (c : Char) (i : Nat) : Prop :=
  l[i]? = some c ∧ ∀ j, j < l.length → i < j → l[j]? ≠ some c

/-- Spec-side notion: `sub` occurs contiguously inside `s`. -/
def strContains (s sub : String) : Prop :=
  ∃ a b : List Char, s.data = a ++ sub.data ++ b

/-- Concrete generator oracle: always answers with a well-formed report. -/
def genOkJson : String → Except String String :=
  fun _ => Except.ok "\x7b\"email_subject\":\"s\",\"email_body\":\"b\"\x7d"

/-- Concrete generator oracle: always answers prose without braces. -/
def genNoJson : String → Except String String :=
  fun _ => Except.ok "model refused to answer"

/-- Concrete generator oracle: the HTTP call raises on every attempt. -/
def genHttpFail : String → Except String String :=
  fun _ => Except.error "HTTPError"

/-- Concrete feed oracle: every fetch faults (no parseable entries). -/
def fpFault : String → ParsedFeed := fun _ => ⟨[]⟩

theorem pyFind_some_get {l : List Char} {c : Char} {i : Nat}
    (h : pyFind l c = some i) : l[i]? = some c := by
  induction l generalizing i with
  | nil => simp [pyFind] at h
  | cons x xs ih =>
    rw [pyFind] at h
    by_cases hx : x = c
    · rw [if_pos hx] at h
      cases h
      simpa using hx
    · rw [if_neg hx, Option.map_eq_some'] at h
      obtain ⟨j, hj, rfl⟩ := h
      simpa using ih hj

theorem pyFind_min {l : List Char} {c : Char} {i : Nat}
    (h : pyFind l c = some i) : ∀ j, j < i → l[j]? ≠ some c := by
  induction l generalizing i with
  | nil => simp [pyFind] at h
  | cons x xs ih =>
    rw [pyFind] at h
    by_cases hx : x = c
    · rw [if_pos hx] at h
      cases h
      omega
    · rw [if_neg hx, Option.map_eq_some'] at h
      obtain ⟨i2, hi2, rfl⟩ := h
      intro j hj
      cases j with
      | zero => simpa using hx
      | succ j2 =>
        have := ih hi2 j2 (by omega)
        simpa using this
  
theorem pyFind_none {l : List Char} {c : Char}
    (h : pyFind l c = none) : ∀ j : Nat, l[j]? ≠ some c := by
  induction l with
  | nil => intro j; simp
  | cons x xs ih =>
    rw [pyFind] at h
    by_cases hx : x = c
    · rw [if_pos hx] at h; cases h
    · rw [if_neg hx, Option.map_eq_none'] at h
      intro j
      cases j with
      | zero => simpa using hx
      | succ j2 => simpa using ih h j2

theorem pyRfind_some_get {l : List Char} {c : Char} {i : Nat}
    (h : pyRfind l c = some i) : l[i]? = some c := by
  induction l generalizing i with
  | nil => simp [pyRfind] at h
  | cons x xs ih =>
    rw [pyRfind] at h
    cases hxs : pyRfind xs c with
    | some j =>
      rw [hxs] at h
      cases h
      simpa using ih hxs
    | none =>
      rw [hxs] at h
      by_cases hx : x = c
      · rw [if_pos hx] at h
        cases h
        simpa using hx
      · rw [if_neg hx] at h
        cases h

theorem pyRfind_none {l : List Char} {c : Char}
    (h : pyRfind l c = none) : ∀ j : Nat, l[j]? ≠ some c := by
  induction l with
  | nil => intro j; simp
  | cons x xs ih =>
    rw [pyRfind] at h
    cases hxs : pyRfind xs c with
    | some j => rw [hxs] at h; cases h
    | none =>
      rw [hxs] at h
      by_cases hx : x = c
      · rw [if_pos hx] at h; cases h
      · intro j
        cases j with
        | zero => simpa using hx
        | succ j2 => simpa using ih hxs j2

theorem pyRfind_max {l : List Char} {c : Char} {i : Nat}
    (h : pyRfind l c = some i) : ∀ j, i < j → l[j]? ≠ some c := by
  induction l generalizing i with
  | nil => simp [pyRfind] at h
  | cons x xs ih =>
    rw [pyRfind] at h
    cases hxs : pyRfind xs c with
    | some k =>
      rw [hxs] at h
      cases h
      intro j hj
      cases j with
      | zero => omega
      | succ j2 => simpa using ih hxs j2 (by omega)
    | none =>
      rw [hxs] at h
      by_cases hx : x = c
      · rw [if_pos hx] at h
        cases h
        intro j hj
        cases j with
        | zero => omega
        | succ j2 => simpa using pyRfind_none hxs j2
      · rw [if_neg hx] at h
        cases h

theorem pyFind_of_firstIdxOf {l : List Char} {c : Char} {i : Nat}
    (h : firstIdxOf l c i) : pyFind l c = some i := by
  obtain ⟨hget, hmin⟩ := h
  cases hf : pyFind l c with
  | none => exact absurd hget (pyFind_none hf i)
  | some j =>
    rcases Nat.lt_trichotomy j i with hlt | rfl | hgt
    · exact absurd (pyFind_some_get hf) (hmin j hlt)
    · rfl
    · exact absurd hget (pyFind_min hf i hgt)

theorem pyRfind_of_lastIdxOf {l : List Char} {c : Char} {i : Nat}
    (h : lastIdxOf l c i) : pyRfind l c = some i := by
  obtain ⟨hget, hmax⟩ := h
  cases hf : pyRfind l c with
  | none => exact absurd hget (pyRfind_none hf i)
  | some j =>
    rcases Nat.lt_trichotomy j i with hlt | rfl | hgt
    · exact absurd hget (pyRfind_max hf i hlt)
    · rfl
    · have hjlen : j < l.length := by
        have := pyRfind_some_get hf
        rw [List.getElem?_eq_some] at this
        exact this.1
      exact absurd (pyRfind_some_get hf) (hmax j hjlen hgt)

theorem skipWs_brace (r : List Char) : skipWs ('\x7b' :: r) = '\x7b' :: r := rfl

theorem json_loads_nil : json_loads (String.mk []) = .error "Expecting value" := rfl

theorem json_loads_cons_brace {rest : List Char} {v : JsonVal}
    (h : json_loads (String.mk ('\x7b' :: rest)) = Except.ok v) :
    ∃ kvs, v = JsonVal.obj kvs := by
  obtain ⟨f, hf⟩ : ∃ f, 3 * (String.mk ('\x7b' :: rest)).length + 3 = f + 1 :=
    ⟨3 * (String.mk ('\x7b' :: rest)).length + 2, rfl⟩
  rw [json_loads] at h
  have hdata : (String.mk ('\x7b' :: rest)).data = '\x7b' :: rest := rfl
  rw [hdata, skipWs_brace, hf, parseValue] at h
  cases hob : parseObjBody f (skipWs rest) with
  | error e =>
    rw [hob] at h
    simp [Except.map] at h
  | ok p =>
    rw [hob] at h
    simp only [Except.map] at h
    cases hsk : skipWs p.2 with
    | nil =>
      rw [hsk] at h
      cases h
      exact ⟨p.1, rfl⟩
    | cons y ys =>
      rw [hsk] at h
      cases h

theorem finishCalls_calls (calls : List String) (report : JsonVal) :
    (finishCalls calls report).calls = calls := by
  rw [finishCalls]
  cases reportEmail report <;> rfl

theorem strContains_appendL {s sub : String} (t : String) (h : strContains s sub) :
    strContains (s ++ t) sub := by
  obtain ⟨a, b, hab⟩ := h
  exact ⟨a, b ++ t.data, by rw [String.data_append, hab]; simp [List.append_assoc]⟩

theorem strContains_appendR {t sub : String} (s : String) (h : strContains t sub) :
    strContains (s ++ t) sub := by
  obtain ⟨a, b, hab⟩ := h
  exact ⟨s.data ++ a, b, by rw [String.data_append, hab]; simp [List.append_assoc]⟩

theorem strContains_self (s : String) : strContains s s := ⟨[], [], by simp⟩

theorem extract_ok_elim {text : String} {r : JsonVal}
    (h : safe_extract_json text = ExtractResult.ok r) :
    ∃ s e, pyFind text.data '\x7b' = some s ∧ pyRfind text.data '\x7d' = some e ∧
      json_loads (String.mk (pySlice text.data s (e + 1))) = Except.ok r := by
  rw [safe_extract_json] at h
  cases hf : pyFind text.data '\x7b' with
  | none =>
    rw [hf] at h
    cases hr : pyRfind text.data '\x7d' <;> rw [hr] at h <;> simp at h
  | some s =>
    cases hr : pyRfind text.data '\x7d' with
    | none => rw [hf, hr] at h; simp at h
    | some e =>
      rw [hf, hr] at h
      simp only [ExtractResult.ok.injEq] at h
      cases hj : json_loads (String.mk (pySlice text.data s (e + 1))) with
      | ok v =>
        rw [hj] at h
        simp at h
        exact ⟨s, e, rfl, rfl, by rw [hj, h]⟩
      | error m => rw [hj] at h; simp at h

theorem extract_ok_obj {text : String} {r : JsonVal}
    (h : safe_extract_json text = ExtractResult.ok r) : ∃ kvs, r = JsonVal.obj kvs := by
  obtain ⟨s, e, hs, he, hj⟩ := extract_ok_elim h
  by_cases hse : e < s
  · have hsp : pySlice text.data s (e + 1) = [] := by
      rw [pySlice]
      have h0 : e + 1 - s = 0 := by omega
      rw [h0]
      simp
    rw [hsp, json_loads_nil] at hj
    cases hj
  · have hget : text.data[s]? = some '\x7b' := pyFind_some_get hs
    have hdrop : (text.data.drop s)[0]? = some '\x7b' := by
      rw [List.getElem?_drop]
      simpa using hget
    cases hd : text.data.drop s with
    | nil => rw [hd] at hdrop; simp at hdrop
    | cons x xs =>
      rw [hd] at hdrop
      simp at hdrop
      obtain ⟨k2, hk⟩ : ∃ k2, e + 1 - s = k2 + 1 := ⟨e - s, by omega⟩
      have hsp : pySlice text.data s (e + 1) = '\x7b' :: xs.take k2 := by
        rw [pySlice, hd, hk, hdrop]
        simp
      rw [hsp] at hj
      exact json_loads_cons_brace hj

/-- C1: for every input text, the JSON Extractor computes the index of the
first opening brace and the index of the last closing brace; if either is
absent it fails with exactly "No JSON detected"; otherwise it parses the
substring spanning those two indices inclusive, returning the parsed value
on success and otherwise a failure whose error mentions the parse
failure. -/
theorem claim_C1 (text : String) :
    (((∀ i : Nat, text.data[i]? ≠ some '\x7b') ∨
      (∀ i : Nat, text.data[i]? ≠ some '\x7d')) →
        safe_extract_json text = ExtractResult.fail text "No JSON detected") ∧
    (∀ s e, firstIdxOf text.data '\x7b' s → lastIdxOf text.data '\x7d' e →
      safe_extract_json text =
        match json_loads (String.mk (pySlice text.data s (e + 1))) with
        | Except.ok v => ExtractResult.ok v
        | Except.error m => ExtractResult.fail text ("JSON parse failed: " ++ m)) := by
  constructor
  · intro h
    rw [safe_extract_json]
    rcases h with h | h
    · cases hf : pyFind text.data '\x7b' with
      | none => cases pyRfind text.data '\x7d' <;> rfl
      | some i => exact absurd (pyFind_some_get hf) (h i)
    · cases hr : pyRfind text.data '\x7d' with
      | none => cases pyFind text.data '\x7b' <;> rfl
      | some i => exact absurd (pyRfind_some_get hr) (h i)
  · intro s e hs he
    rw [safe_extract_json, pyFind_of_firstIdxOf hs, pyRfind_of_lastIdxOf he]

/-- C1 witness: on `"x\x7b\x7d"` the first brace is at index 1, the last
closing brace at index 2, and extraction parses the span to the empty
object. -/
theorem claim_C1_witness :
    firstIdxOf "x\x7b\x7d".data '\x7b' 1 ∧ lastIdxOf "x\x7b\x7d".data '\x7d' 2 ∧
      safe_extract_json "x\x7b\x7d" =
        match json_loads (String.mk (pySlice "x\x7b\x7d".data 1 (2 + 1))) with
        | Except.ok v => ExtractResult.ok v
        | Except.error m =>
          ExtractResult.fail "x\x7b\x7d" ("JSON parse failed: " ++ m) :=
  ⟨by unfold firstIdxOf; decide, by unfold lastIdxOf; decide,
    (claim_C1 "x\x7b\x7d").2 1 2 (by unfold firstIdxOf; decide)
      (by unfold lastIdxOf; decide)⟩

/-- C4: extraction never misreports — a success carries a value parsed
from a contiguous substring of the input, and a failure carries the
original input text unchanged together with a non-empty reason. -/
theorem claim_C4 (text : String) :
    (∀ r, safe_extract_json text = ExtractResult.ok r →
      ∃ sub : List Char, (∃ a b : List Char, text.data = a ++ sub ++ b) ∧
        json_loads (String.mk sub) = Except.ok r) ∧
    (∀ raw err, safe_extract_json text = ExtractResult.fail raw err →
      raw = text ∧ err ≠ "") := by
  constructor
  · intro r h
    obtain ⟨s, e, _, _, hj⟩ := extract_ok_elim h
    refine ⟨pySlice text.data s (e + 1),
      ⟨text.data.take s, (text.data.drop s).drop (e + 1 - s), ?_⟩, hj⟩
    rw [pySlice, List.append_assoc, List.take_append_drop, List.take_append_drop]
  · intro raw err h
    rw [safe_extract_json] at h
    cases hf : pyFind text.data '\x7b' with
    | none =>
      rw [hf] at h
      cases hr : pyRfind text.data '\x7d' with
      | none =>
        rw [hr] at h
        simp only [ExtractResult.fail.injEq] at h
        exact ⟨h.1.symm, by rw [← h.2]; decide⟩
      | some e =>
        rw [hr] at h
        simp only [ExtractResult.fail.injEq] at h
        exact ⟨h.1.symm, by rw [← h.2]; decide⟩
    | some s =>
      cases hr : pyRfind text.data '\x7d' with
      | none =>
        rw [hf, hr] at h
        simp only [ExtractResult.fail.injEq] at h
        exact ⟨h.1.symm, by rw [← h.2]; decide⟩
      | some e =>
        rw [hf, hr] at h
        cases hj : json_loads (String.mk (pySlice text.data s (e + 1))) with
        | ok v => simp [hj] at h
        | error m =>
          simp only [hj, ExtractResult.fail.injEq] at h
          refine ⟨h.1.symm, ?_⟩
          rw [← h.2]
          intro heq
          have hl := congrArg String.length heq
          rw [String.length_append] at hl
          have h19 : "JSON parse failed: ".length = 19 := rfl
          have h0 : "".length = 0 := rfl
          rw [h19, h0] at hl
          omega

/-- C4 witness: on an input with no braces, extraction fails carrying the
input unchanged and the non-empty reason "No JSON detected". -/
theorem claim_C4_witness :
    "no braces" = "no braces" ∧ "No JSON detected" ≠ "" :=
  (claim_C4 "no braces").2 "no braces" "No JSON detected" rfl

/-- C9: whenever extraction succeeds the report is a JSON object (the
extracted span begins with an opening brace and ends with a closing one),
so the success-path `email_subject`/`email_body` lookups are defined
(`reportEmail` is `some`), and the run finishes with exactly one report
email and no uncaught error. -/
theorem claim_C9 (gen : String → Except String String) (prompt raw : String) (r : JsonVal)
    (h1 : gen prompt = Except.ok raw)
    (h2 : safe_extract_json raw = ExtractResult.ok r) :
    (∃ kvs, r = JsonVal.obj kvs) ∧ (reportEmail r).isSome = true ∧
      (runMain gen prompt).aborted = none ∧ (runMain gen prompt).emails.length = 1 := by
  obtain ⟨kvs, hk⟩ := extract_ok_obj h2
  refine ⟨⟨kvs, hk⟩, by rw [hk, reportEmail]; rfl, ?_, ?_⟩ <;>
    simp [runMain, h1, h2, hk, finishCalls, reportEmail]

/-- C9 witness: the raw output `"\x7b\x7d"` extracts to the empty object,
whose lookups are defined, and the run with a generator answering it
finishes cleanly with one email. -/
theorem claim_C9_witness :
    (∃ kvs, JsonVal.obj [] = JsonVal.obj kvs) ∧
      (reportEmail (JsonVal.obj [])).isSome = true ∧
      (runMain (fun _ => Except.ok "\x7b\x7d") "p").aborted = none ∧
      (runMain (fun _ => Except.ok "\x7b\x7d") "p").emails.length = 1 :=
  claim_C9 (fun _ => Except.ok "\x7b\x7d") "p" "\x7b\x7d" (JsonVal.obj []) rfl rfl

/-- C10: when the last closing brace precedes the first opening brace the
extracted span is empty, so extraction attempts the parse and fails with
an error beginning "JSON parse failed" — not with "No JSON detected". -/
theorem claim_C10 (text : String) (s e : Nat)
    (hs : pyFind text.data '\x7b' = some s) (he : pyRfind text.data '\x7d' = some e)
    (hlt : e < s) :
    safe_extract_json text =
      ExtractResult.fail text ("JSON parse failed: " ++ "Expecting value") ∧
    ("JSON parse failed: " ++ "Expecting value") ≠ "No JSON detected" := by
  have hsp : pySlice text.data s (e + 1) = [] := by
    rw [pySlice]
    have h0 : e + 1 - s = 0 := by omega
    rw [h0]
    simp
  constructor
  · rw [safe_extract_json, hs, he]
    simp only [hsp, json_loads_nil]
  · decide

/-- C10 witness: on `"\x7d then \x7b"` the first opening brace (index 7)
comes after the last closing brace (index 0) and extraction reports a
parse failure, not "No JSON detected". -/
theorem claim_C10_witness :
    safe_extract_json "\x7d then \x7b" =
      ExtractResult.fail "\x7d then \x7b" ("JSON parse failed: " ++ "Expecting value") ∧
    ("JSON parse failed: " ++ "Expecting value") ≠ "No JSON detected" :=
  claim_C10 "\x7d then \x7b" 7 0 rfl rfl (by omega)

/-- C2: every run calls the Generator at most twice — exactly once when
the first extraction succeeds, exactly twice when it fails, the second
time with the strict-instruction prefix prepended to the original
prompt. -/
theorem claim_C2 (gen : String → Except String String) (prompt : String) :
    (runMain gen prompt).calls.length ≤ 2 ∧
    (∀ raw, gen prompt = Except.ok raw →
      ((∃ r, safe_extract_json raw = ExtractResult.ok r) →
        (runMain gen prompt).calls = [prompt]) ∧
      ((∃ raw1 e1, safe_extract_json raw = ExtractResult.fail raw1 e1) →
        (runMain gen prompt).calls = [prompt, strictHeader ++ prompt])) := by
  refine ⟨?_, ?_⟩
  · rw [runMain]
    cases hg : gen prompt with
    | error e => simp
    | ok raw =>
      cases hx : safe_extract_json raw with
      | ok report => simp [hx, finishCalls_calls]
      | fail a b =>
        cases hg2 : gen (strictHeader ++ prompt) with
        | error e => simp [hx, hg2]
        | ok raw2 =>
          cases hx2 : safe_extract_json raw2 with
          | ok report => simp [hx, hg2, hx2, finishCalls_calls]
          | fail a2 b2 => simp [hx, hg2, hx2]
  · intro raw hraw
    constructor
    · rintro ⟨r, hr⟩
      simp [runMain, hraw, hr, finishCalls_calls]
    · rintro ⟨raw1, e1, hr⟩
      simp only [runMain, hraw, hr]
      cases hg2 : gen (strictHeader ++ prompt) with
      | error e => simp [hg2]
      | ok raw2 =>
        cases hx2 : safe_extract_json raw2 with
        | ok report => simp [hg2, hx2, finishCalls_calls]
        | fail a2 b2 => simp [hg2, hx2]

/-- C2 witness: with a generator whose first answer already extracts, the
run issues exactly the one original prompt. -/
theorem claim_C2_witness :
    (runMain genOkJson "p").calls.length ≤ 2 ∧ (runMain genOkJson "p").calls = ["p"] :=
  ⟨(claim_C2 genOkJson "p").1,
    ((claim_C2 genOkJson "p").2 "\x7b\"email_subject\":\"s\",\"email_body\":\"b\"\x7d" rfl).1
      ⟨JsonVal.obj [("email_subject", JsonVal.str "s"), ("email_body", JsonVal.str "b")],
        rfl⟩⟩

/-- C3: if both extraction attempts fail, the run sends exactly one email,
the debug email — subject "Weekly Trend Agent ERROR (JSON parsing
failed)", body "Error: " followed by the failure reason and then at most
the first 8000 characters of the raw output — and terminates without a
report email and without an uncaught error. -/
theorem claim_C3 (gen : String → Except String String)
    (prompt raw raw2 raw1k err1 raw2k err2 : String)
    (h1 : gen prompt = Except.ok raw)
    (h2 : safe_extract_json raw = ExtractResult.fail raw1k err1)
    (h3 : gen (strictHeader ++ prompt) = Except.ok raw2)
    (h4 : safe_extract_json raw2 = ExtractResult.fail raw2k err2) :
    (runMain gen prompt).emails =
      [⟨JsonVal.str "Weekly Trend Agent ERROR (JSON parsing failed)",
        JsonVal.str ("Error: " ++ err2 ++ "\n\nRaw output:\n" ++ raw2k.take 8000)⟩] ∧
    (runMain gen prompt).aborted = none := by
  constructor <;> simp [runMain, h1, h2, h3, h4, debugEmail]

/-- C3 witness: a generator that always answers brace-free prose fails
extraction twice and the run sends exactly the debug email. -/
theorem claim_C3_witness :
    (runMain genNoJson "p").emails =
      [⟨JsonVal.str "Weekly Trend Agent ERROR (JSON parsing failed)",
        JsonVal.str ("Error: " ++ "No JSON detected" ++ "\n\nRaw output:\n" ++
          String.take "model refused to answer" 8000)⟩] ∧
    (runMain genNoJson "p").aborted = none :=
  claim_C3 genNoJson "p" "model refused to answer" "model refused to answer"
    "model refused to answer" "No JSON detected" "model refused to answer"
    "No JSON detected" rfl rfl rfl rfl

/-- C5: the Feed Collector returns at most `max_items` items (each a
`FeedItem` with its three fields), and a faulting fetch — modelled, per
the spec, as the no-raise `feedparser` yielding no parseable entries —
produces the empty sequence rather than an exception. -/
theorem claim_C5 (feedparse : String → ParsedFeed) (url : String) (max_items : Nat) :
    (fetch_rss feedparse url max_items).length ≤ max_items ∧
    (feedparse url = ⟨[]⟩ → fetch_rss feedparse url max_items = []) := by
  constructor
  · simp only [fetch_rss, List.length_map, List.length_take]
    omega
  · intro h
    simp [fetch_rss, h]

/-- C5 witness: with every fetch faulting, the collector returns the empty
sequence for the trends feed at its configured cap of 40. -/
theorem claim_C5_witness :
    (fetch_rss fpFault GOOGLE_TRENDS_DAILY_LK 40).length ≤ 40 ∧
      fetch_rss fpFault GOOGLE_TRENDS_DAILY_LK 40 = [] :=
  ⟨(claim_C5 fpFault GOOGLE_TRENDS_DAILY_LK 40).1,
    (claim_C5 fpFault GOOGLE_TRENDS_DAILY_LK 40).2 rfl⟩

/-- C6: a generation failure on either attempt propagates: the run
records the uncaught error and sends no email of any kind. -/
theorem claim_C6 (gen : String → Except String String) (prompt : String) :
    (∀ e, gen prompt = Except.error e →
      (runMain gen prompt).emails = [] ∧ (runMain gen prompt).aborted = some e) ∧
    (∀ raw raw1k err1 e2, gen prompt = Except.ok raw →
      safe_extract_json raw = ExtractResult.fail raw1k err1 →
      gen (strictHeader ++ prompt) = Except.error e2 →
      (runMain gen prompt).emails = [] ∧ (runMain gen prompt).aborted = some e2) := by
  constructor
  · intro e he
    constructor <;> simp [runMain, he]
  · intro raw raw1k err1 e2 hraw hx he2
    constructor <;> simp [runMain, hraw, hx, he2]

/-- C6 witness: with a generator that raises, the run aborts with the
error and sends nothing. -/
theorem claim_C6_witness :
    (runMain genHttpFail "p").emails = [] ∧
      (runMain genHttpFail "p").aborted = some "HTTPError" :=
  (claim_C6 genHttpFail "p").1 "HTTPError" rfl

/-- C7: the Prompt Builder is a pure function of (date, trends, news):
identical inputs give byte-identical prompt text. -/
theorem claim_C7 (d1 d2 : String) (t1 t2 n1 n2 : List FeedItem)
    (hd : d1 = d2) (ht : t1 = t2) (hn : n1 = n2) :
    build_prompt d1 t1 n1 = build_prompt d2 t2 n2 := by
  subst hd; subst ht; subst hn; rfl

/-- C7 witness: two invocations on one concrete input coincide. -/
theorem claim_C7_witness :
    build_prompt "2026-10-12" [] [] = build_prompt "2026-10-12" [] [] :=
  claim_C7 "2026-10-12" "2026-10-12" [] [] [] [] rfl rfl rfl

/-- C8: with both feeds empty, the built prompt contains the literal
substrings `"google_trends_lk_daily": []` and `"google_news_lk": []`
(inside the dumped input blob). -/
theorem claim_C8 (today : String) :
    strContains (build_prompt today [] []) "\"google_trends_lk_daily\": []" ∧
    strContains (build_prompt today [] []) "\"google_news_lk\": []" := by
  have harr : dumpsV (JsonVal.arr []) = "[]" := by
    rw [dumpsV, dumpsItems]
    decide
  constructor
  · rw [build_prompt]
    apply strContains_appendL
    apply strContains_appendR
    rw [json_dumps, input_blob]
    simp only [List.map_nil]
    rw [dumpsV]
    apply strContains_appendL
    apply strContains_appendR
    rw [dumpsMembers]
    case x_1 => simp
    apply strContains_appendR
    rw [dumpsMembers]
    case x_1 => simp
    apply strContains_appendL
    apply strContains_appendL
    rw [harr]
    have hchunk : json_dumps_string "google_trends_lk_daily" ++ ": " ++ "[]" =
        "\"google_trends_lk_daily\": []" := by decide
    rw [hchunk]
    exact strContains_self _
  · rw [build_prompt]
    apply strContains_appendL
    apply strContains_appendR
    rw [json_dumps, input_blob]
    simp only [List.map_nil]
    rw [dumpsV]
    apply strContains_appendL
    apply strContains_appendR
    rw [dumpsMembers]
    case x_1 => simp
    apply strContains_appendR
    rw [dumpsMembers]
    case x_1 => simp
    apply strContains_appendR
    rw [dumpsMembers]
    rw [harr]
    have hchunk : json_dumps_string "google_news_lk" ++ ": " ++ "[]" =
        "\"google_news_lk\": []" := by decide
    rw [hchunk]
    exact strContains_self _

/-- C8 witness: the containment at a concrete date. -/
theorem claim_C8_witness :
    strContains (build_prompt "2026-10-12" [] []) "\"google_trends_lk_daily\": []" ∧
    strContains (build_prompt "2026-10-12" [] []) "\"google_news_lk\": []" :=
  claim_C8 "2026-10-12"
